import Mathlib

/-!
Shallow embedding of `src/tabs.py`, a polling window-tiling daemon.

The program shells out to X11 tools (`xdpyinfo`, `xprop`, `xwininfo`,
`wmctrl`).  The embedding represents the external world as an `Env` record:
the raw `xdpyinfo` query outcome, the per-window maximized flag, and the
per-window geometry query.  Pure Python arithmetic is modelled on `Nat`/`Int`
(Python ints are unbounded, so no wrap-around is needed); `math.floor` of a
true division by a positive divisor is `Int.fdiv`; a Python runtime exception
is an `Except.error` value.  Log output is modelled as the list of message
strings the code emits, in order.

Faithfulness notes on the source:
* `arrange_and_update_state` (line 203) assigns the freshly computed state to
  the misspelled local variable `prev_window_states`, not to the declared
  `global prev_window_state`; the embedding therefore returns the computed
  dictionary as the pass's `new_state` value while the global state threaded
  through `arrange_windows` is left unchanged on every path.
* `screensize` returns `None` (falls off the `for` loop) when no output line
  contains the substring `dimensions:`; the broad `except` clauses map tool
  failure and parse exceptions to the `(1920, 1080)` default.
* `arrange_and_update_state` divides `len(windows)` by
  `math.ceil(math.sqrt(len(windows)))`, which raises `ZeroDivisionError` when
  the list is empty.
-/

/-- A window identifier as reported by `wmctrl -l` (an opaque handle). -/
abbrev WinId := String

/-- A geometry `(x, y, width, height)` in pixels, as used by
`get_window_geometry` and `move_resize`. -/
abbrev Geom := Int × Int × Int × Int

/-- One enumerated window: `(win_id, title)`, the shape produced by
`open_windows`. -/
abbrev Window := WinId × String

/-- The `prev_window_state` dictionary: insertion-ordered association list
from window identifier to last recorded geometry. -/
abbrev StateMap := List (WinId × Geom)

/-- Outcome of the `xdpyinfo` subprocess call inside `screensize`:
the tool may be absent (`FileNotFoundError`), exit non-zero
(`CalledProcessError`), or produce output lines. -/
inductive XResult where
  | missing
  | failed
  | output (lines : List String)

/-- A Python runtime exception escaping the arrangement code:
`ZeroDivisionError` from dividing by a zero column/row count, or the
`TypeError` raised when `tabsize` unpacks the `None` that `screensize`
returns on unparsable output. -/
inductive PyErr where
  | zeroDivision
  | typeError
deriving DecidableEq

/-- The external world the program queries: the raw screen-dimension query
result, the `_NET_WM_STATE` maximized flag per window (`is_maximized`, which
returns `False` on any query failure, hence a total `Bool`), and the
`xwininfo` geometry per window (`get_window_geometry`, `None` on failure). -/
structure Env where
  xdpyinfo : XResult
  is_maximized : WinId → Bool
  get_window_geometry : WinId → Option Geom

/-- A `move_resize` command as issued to `wmctrl -ir <id> -e 0,x,y,w,h`. -/
structure Cmd where
  win_id : WinId
  x : Int
  y : Int
  width : Int
  height : Int
deriving DecidableEq

/- ### String parsing helpers used by `screensize`

Python string operations modelled structurally on `List Char` so that every
definition kernel-reduces on concrete input. -/

/-- Whether `sub` is a prefix of `s` (character lists). -/
def listStartsWith : List Char → List Char → Bool
  | [], _ => true
  | _ :: _, [] => false
  | a :: sub, b :: s => a == b && listStartsWith sub s

/-- Whether `sub` occurs as a contiguous substring of `s`; models the Python
test `sub in s`. -/
def listContainsSub (sub : List Char) : List Char → Bool
  | [] => listStartsWith sub []
  | c :: s => listStartsWith sub (c :: s) || listContainsSub sub s

/-- Python `sub in line` on strings. -/
def pyContains (sub s : String) : Bool := listContainsSub sub.data s.data

/-- Helper for `pySplit`: accumulates the current field (reversed) while
scanning. -/
def splitWSAux (cur : List Char) : List Char → List (List Char)
  | [] => if cur.isEmpty then [] else [cur.reverse]
  | c :: rest =>
    if c == ' ' then
      if cur.isEmpty then splitWSAux [] rest
      else cur.reverse :: splitWSAux [] rest
    else splitWSAux (c :: cur) rest

/-- Python `line.split()` (no argument): split on runs of spaces, dropping
empty fields.  (The dimension line of `xdpyinfo` is space-separated.) -/
def pySplit (s : String) : List (List Char) := splitWSAux [] s.data

/-- Helper for `splitOnChar`: accumulates the current field (reversed). -/
def splitOnCharAux (sep : Char) (cur : List Char) : List Char → List (List Char)
  | [] => [cur.reverse]
  | c :: rest =>
    if c == sep then cur.reverse :: splitOnCharAux sep [] rest
    else splitOnCharAux sep (c :: cur) rest

/-- Python `s.split(sep)` for a single-character separator, keeping empty
fields, as used in `parts[1].split('x')`. -/
def splitOnChar (sep : Char) (s : List Char) : List (List Char) :=
  splitOnCharAux sep [] s

/-- Decimal digit accumulation for `pyInt`. -/
def parseDigits (acc : Nat) : List Char → Option Nat
  | [] => some acc
  | c :: rest => if c.isDigit then parseDigits (acc * 10 + (c.toNat - 48)) rest else none

/-- Python `int(s)` on a token: an optional leading minus sign followed by at
least one decimal digit; `none` models the `ValueError` it otherwise raises. -/
def pyInt (s : List Char) : Option Int :=
  match s with
  | [] => none
  | c :: rest =>
    if c == '-' then
      match rest with
      | [] => none
      | _ :: _ => (parseDigits 0 rest).map (fun n => -(n : Int))
    else (parseDigits 0 (c :: rest)).map (fun n => (n : Int))

/-- Lines 20-22 of `screensize`: `parts = line.split()` then
`width, height = map(int, parts[1].split('x'))`.  `none` models any exception
raised there (`IndexError` when the line has fewer than two fields,
`ValueError` when the second field is not exactly `INTxINT`), which the
enclosing `except Exception` clause turns into the default. -/
def parseDimLine (line : String) : Option (Int × Int) :=
  match (pySplit line).get? 1 with
  | none => none
  | some p =>
    match (splitOnChar 'x' p).map pyInt with
    | [some w, some h] => some (w, h)
    | _ => none

/-- The `for` loop of `screensize`: the first output line containing the
substring `dimensions:` (later lines are never reached — the first such line
either returns or raises). -/
def findDimLine : List String → Option String
  | [] => none
  | l :: ls => if pyContains "dimensions:" l then some l else findDimLine ls

/-- `screensize` (lines 14-29): on `FileNotFoundError` or
`CalledProcessError` it returns the `(1920, 1080)` default, as it does when
parsing the dimensions line raises (broad `except Exception`); but when no
output line contains `dimensions:` the `for` loop falls through and the
function implicitly returns `None`. -/
def screensize (q : XResult) : Option (Int × Int) :=
  match q with
  | XResult.missing => some (1920, 1080)
  | XResult.failed => some (1920, 1080)
  | XResult.output lines =>
    match findDimLine lines with
    | none => none
    | some line =>
      match parseDimLine line with
      | some wh => some wh
      | none => some (1920, 1080)

/-- `tabsize` (lines 31-36): `math.floor(width / cols)` and
`math.floor(height / rows)`.  Unpacking a `None` screen size raises
`TypeError`; a zero divisor raises `ZeroDivisionError`.  For a positive
divisor, floor of the true quotient is `Int.fdiv`. -/
def tabsize (q : XResult) (cols rows : Nat) : Except PyErr (Int × Int) :=
  match screensize q with
  | none => Except.error PyErr.typeError
  | some (w, h) =>
    if cols = 0 then Except.error PyErr.zeroDivision
    else if rows = 0 then Except.error PyErr.zeroDivision
    else Except.ok (Int.fdiv w (Int.ofNat cols), Int.fdiv h (Int.ofNat rows))

/-- Downward scan for `ceilSqrt`: called with candidate `c + 1` known to
satisfy `n ≤ (c + 1) * (c + 1)`, it returns the least `d` with
`n ≤ d * d`. -/
def ceilSqrtAux (n : Nat) : Nat → Nat
  | 0 => 0
  | c + 1 => if n ≤ c * c then ceilSqrtAux n c else c + 1

/-- `math.ceil(math.sqrt(n))` for a natural `n` (line 186): the least `c`
with `n ≤ c * c`, which is exactly the ceiling of the real square root. -/
def ceilSqrt (n : Nat) : Nat := ceilSqrtAux n n

/-- The result of one `arrange_and_update_state` call: the `move_resize`
commands issued (in order), the freshly built `new_state` dictionary, and the
log messages emitted. -/
structure ArrangeResult where
  cmds : List Cmd
  new_state : StateMap
  log : List String
deriving DecidableEq

/-- The `for i, (win_id, title) in enumerate(windows)` loop of
`arrange_and_update_state` (lines 191-201), started at index `i`: a
maximized window is logged and its observed geometry (when available)
recorded without any command; otherwise the window is sent to grid cell
`(i mod cols, i div cols)` and the intended geometry recorded. -/
def arrangeLoop (env : Env) (cols : Nat) (tw th : Int) :
    Nat → List Window → List Cmd × StateMap × List String
  | _, [] => ([], [], [])
  | i, (win_id, title) :: rest =>
    if env.is_maximized win_id then
      match env.get_window_geometry win_id with
      | some geom =>
          ((arrangeLoop env cols tw th (i + 1) rest).1,
           (win_id, geom) :: (arrangeLoop env cols tw th (i + 1) rest).2.1,
           ("Skipping maximized window: " ++ title ++ " (ID: " ++ win_id ++ ")") ::
             (arrangeLoop env cols tw th (i + 1) rest).2.2)
      | none =>
          ((arrangeLoop env cols tw th (i + 1) rest).1,
           (arrangeLoop env cols tw th (i + 1) rest).2.1,
           ("Skipping maximized window: " ++ title ++ " (ID: " ++ win_id ++ ")") ::
             (arrangeLoop env cols tw th (i + 1) rest).2.2)
    else
      (⟨win_id, Int.ofNat (i % cols) * tw, Int.ofNat (i / cols) * th, tw, th⟩ ::
         (arrangeLoop env cols tw th (i + 1) rest).1,
       (win_id, (Int.ofNat (i % cols) * tw, Int.ofNat (i / cols) * th, tw, th)) ::
         (arrangeLoop env cols tw th (i + 1) rest).2.1,
       (arrangeLoop env cols tw th (i + 1) rest).2.2)

/-- `arrange_and_update_state` (lines 183-204).  `cols` is
`math.ceil(math.sqrt(len(windows)))`; the subsequent
`math.ceil(len(windows) / cols)` raises `ZeroDivisionError` when `cols = 0`
(that is, when the window list is empty); for `cols ≥ 1` the Python ceiling
of the true quotient of naturals is `(len + cols - 1) / cols`.  The function
finishes by assigning the new dictionary to the misspelled local
`prev_window_states` (line 203) — so the computed dictionary is returned
here as `new_state` but the caller's global state is untouched — and logs
the update message. -/
def arrange_and_update_state (env : Env) (windows : List Window) :
    Except PyErr ArrangeResult :=
  if ceilSqrt windows.length = 0 then Except.error PyErr.zeroDivision
  else
    match tabsize env.xdpyinfo (ceilSqrt windows.length)
        ((windows.length + ceilSqrt windows.length - 1) / ceilSqrt windows.length) with
    | Except.error e => Except.error e
    | Except.ok (tw, th) =>
      Except.ok
        ⟨(arrangeLoop env (ceilSqrt windows.length) tw th 0 windows).1,
         (arrangeLoop env (ceilSqrt windows.length) tw th 0 windows).2.1,
         (arrangeLoop env (ceilSqrt windows.length) tw th 0 windows).2.2 ++
           ["Updated layout of " ++ toString windows.length ++ " windows."]⟩

/-- Python `set(a) != set(b)` negated: mutual containment of the two lists,
ignoring order and multiplicity. -/
def setEq (a b : List WinId) : Bool :=
  a.all (fun x => b.contains x) && b.all (fun x => a.contains x)

/-- `prev_window_state.keys()`. -/
def keys (m : StateMap) : List WinId := m.map Prod.fst

/-- `prev_window_state.get(win_id)`: Python dict lookup, later insertions
shadowing earlier ones. -/
def dget (m : StateMap) (k : WinId) : Option Geom := m.reverse.lookup k

/-- Step 2 of `arrange_windows` (lines 171-180): scan `current_ids` in order
for the first non-maximized window whose geometry query succeeds and whose
live geometry differs from the recorded one. -/
def findMoved (env : Env) (prev : StateMap) : List WinId → Option WinId
  | [] => none
  | id :: rest =>
    if env.is_maximized id then findMoved env prev rest
    else
      match env.get_window_geometry id with
      | none => findMoved env prev rest
      | some geom =>
        if dget prev id ≠ some geom then some id else findMoved env prev rest

/-- The outcome of one `arrange_windows` decision pass: the commands issued,
the value of the global `prev_window_state` after the pass, and the log. -/
structure PassResult where
  cmds : List Cmd
  prev_after : StateMap
  log : List String
deriving DecidableEq

/-- An `arrange_and_update_state(current_windows)` call made from
`arrange_windows`, with the triggering log message prepended.  The global
`prev_window_state` (`prev`) is returned unchanged: line 203 of the source
assigns the new dictionary to a misspelled local variable. -/
def rearrangePass (env : Env) (prev : StateMap) (ws : List Window) (msg : String) :
    Except PyErr PassResult :=
  (arrange_and_update_state env ws).map (fun r => ⟨r.cmds, prev, msg :: r.log⟩)

/-- `arrange_windows` (lines 158-182), one decision pass.  `ws` is the value
returned by `open_windows()` this cycle and `prev` the global
`prev_window_state` before the pass.  Step 1 compares identifier sets; step 2
looks for a moved or resized non-maximized window; otherwise the pass is a
no-op that logs at debug level. -/
def arrange_windows (env : Env) (prev : StateMap) (ws : List Window) :
    Except PyErr PassResult :=
  if setEq (ws.map Prod.fst) (keys prev) then
    match findMoved env prev (ws.map Prod.fst) with
    | some id =>
        rearrangePass env prev ws ("Window " ++ id ++ " moved/resized — rearranging.")
    | none => Except.ok ⟨[], prev, ["No layout change needed."]⟩
  else rearrangePass env prev ws "Window set changed — rearranging."

/-- Specification-side grid assignment (stated from the spec's words, to be
compared with the commands the code emits): window `i` (0-indexed, in
enumeration order) is assigned position
`((i mod cols) * cell_width, (i div cols) * cell_height)` with the cell
size. -/
def gridCmds (cols : Nat) (tw th : Int) : Nat → List Window → List Cmd
  | _, [] => []
  | i, (win_id, _) :: rest =>
    ⟨win_id, Int.ofNat (i % cols) * tw, Int.ofNat (i / cols) * th, tw, th⟩ ::
      gridCmds cols tw th (i + 1) rest

/- ### Concrete fixtures for witnesses and counterexamples -/

/-- Environment where the screen query tool is absent (so the default
resolution applies), no window is maximized, and every geometry query
returns `(0, 0, 1920, 1080)`. -/
def envA : Env :=
  { xdpyinfo := XResult.missing
    is_maximized := fun _ => false
    get_window_geometry := fun _ => some (0, 0, 1920, 1080) }

/-- Environment where window `0xm` is maximized with observed geometry
`(5, 6, 300, 200)`; the screen query exits non-zero, so the default
resolution applies. -/
def envB : Env :=
  { xdpyinfo := XResult.failed
    is_maximized := fun id => id == "0xm"
    get_window_geometry := fun id =>
      if id == "0xm" then some (5, 6, 300, 200) else some (7, 8, 90, 100) }

/-- Environment whose screen query yields a realistic `xdpyinfo` output with
a parsable dimensions line. -/
def envD : Env :=
  { xdpyinfo := XResult.output
      ["name of display:    :0",
       "  dimensions:    1920x1080 pixels (508x285 millimeters)"]
    is_maximized := fun _ => false
    get_window_geometry := fun _ => some (0, 0, 10, 10) }

/-- Two-window enumeration containing the maximized window `0xm`. -/
def wsB : List Window := [("0xm", "video"), ("0xn", "term")]

/-- The arrangement result for `envB` and `wsB`: a 2x1 grid of 960x1080
cells; `0xm` is skipped with its observed geometry recorded, `0xn` is sent
to cell 1. -/
def rB : ArrangeResult :=
  ⟨[⟨"0xn", 960, 0, 960, 1080⟩],
   [("0xm", (5, 6, 300, 200)), ("0xn", (960, 0, 960, 1080))],
   ["Skipping maximized window: video (ID: 0xm)", "Updated layout of 2 windows."]⟩

/-- Three-window enumeration for the on-screen-placement witness. -/
def wsC : List Window := [("0x5", "a"), ("0x6", "b"), ("0x7", "c")]

/-- The arrangement result for `envA` and `wsC`: a 2x2 grid of 960x540
cells holding the three windows. -/
def rC : ArrangeResult :=
  ⟨[⟨"0x5", 0, 0, 960, 540⟩, ⟨"0x6", 960, 0, 960, 540⟩, ⟨"0x7", 0, 540, 960, 540⟩],
   [("0x5", (0, 0, 960, 540)), ("0x6", (960, 0, 960, 540)), ("0x7", (0, 540, 960, 540))],
   ["Updated layout of 3 windows."]⟩

/-- Four-window enumeration for the N = 4 grid-placement example. -/
def wsD : List Window := [("0w1", "a"), ("0w2", "b"), ("0w3", "c"), ("0w4", "d")]

/- ### Helper lemmas -/

theorem ceilSqrtAux_pos (n : Nat) (hn : 1 ≤ n) : ∀ c, 1 ≤ ceilSqrtAux n (c + 1) := by
  intro c
  induction c with
  | zero =>
    show 1 ≤ ceilSqrtAux n 1
    unfold ceilSqrtAux
    split
    · rename_i h
      simp only [Nat.zero_mul] at h
      omega
    · omega
  | succ m ih =>
    show 1 ≤ ceilSqrtAux n (m + 2)
    unfold ceilSqrtAux
    split
    · exact ih
    · omega

/-- The column count `math.ceil(math.sqrt(N))` is positive for `N ≥ 1`. -/
theorem ceilSqrt_pos (n : Nat) (hn : 1 ≤ n) : 1 ≤ ceilSqrt n := by
  cases n with
  | zero => omega
  | succ m => exact ceilSqrtAux_pos (m + 1) hn m

theorem length_pos_of_ceilSqrt_ne_zero {n : Nat} (h : ceilSqrt n ≠ 0) : 1 ≤ n := by
  cases n with
  | zero => exact absurd rfl h
  | succ k => omega

/-- Ceiling division covers the dividend: `n ≤ c * ceil(n / c)` for `c ≥ 1`. -/
theorem mul_ceil_div_ge (n c : Nat) (hc : 1 ≤ c) : n ≤ c * ((n + c - 1) / c) := by
  have hdm := Nat.div_add_mod (n + c - 1) c
  have hlt : (n + c - 1) % c < c := Nat.mod_lt _ (by omega)
  omega

/-- The row count `math.ceil(N / cols)` is positive for `N ≥ 1`, `cols ≥ 1`. -/
theorem ceil_div_pos (n c : Nat) (hn : 1 ≤ n) (hc : 1 ≤ c) : 1 ≤ (n + c - 1) / c := by
  rw [Nat.le_div_iff_mul_le (by omega : 0 < c)]
  omega

/-- Inversion of a successful `arrange_and_update_state` call. -/
theorem arrange_ok_elim (env : Env) (ws : List Window) (r : ArrangeResult)
    (hok : arrange_and_update_state env ws = Except.ok r) :
    ∃ tw th,
      tabsize env.xdpyinfo (ceilSqrt ws.length)
          ((ws.length + ceilSqrt ws.length - 1) / ceilSqrt ws.length) =
        Except.ok (tw, th) ∧
      ceilSqrt ws.length ≠ 0 ∧
      r = ⟨(arrangeLoop env (ceilSqrt ws.length) tw th 0 ws).1,
           (arrangeLoop env (ceilSqrt ws.length) tw th 0 ws).2.1,
           (arrangeLoop env (ceilSqrt ws.length) tw th 0 ws).2.2 ++
             ["Updated layout of " ++ toString ws.length ++ " windows."]⟩ := by
  unfold arrange_and_update_state at hok
  split at hok
  · cases hok
  · rename_i hc
    split at hok
    · cases hok
    · rename_i tw th heq
      cases hok
      exact ⟨tw, th, heq, hc, rfl⟩

/-- Every command `arrangeLoop` emits targets a non-maximized window. -/
theorem arrangeLoop_cmds_not_maximized (env : Env) (cols : Nat) (tw th : Int) :
    ∀ (i : Nat) (ws : List Window) (c : Cmd),
      c ∈ (arrangeLoop env cols tw th i ws).1 → env.is_maximized c.win_id = false := by
  intro i ws
  induction ws generalizing i with
  | nil => intro c hc; simp [arrangeLoop] at hc
  | cons hd tl ih =>
    intro c hc
    obtain ⟨wid, wtitle⟩ := hd
    simp only [arrangeLoop] at hc
    split at hc
    · rename_i hmax
      split at hc
      · exact ih (i + 1) c hc
      · exact ih (i + 1) c hc
    · rename_i hmax
      simp only [List.mem_cons] at hc
      rcases hc with hceq | hc
      · subst hceq
        simpa using Bool.not_eq_true _ ▸ hmax
      · exact ih (i + 1) c hc

/-- A maximized window whose geometry query succeeds is recorded with its
observed geometry in the state `arrangeLoop` builds. -/
theorem arrangeLoop_records_maximized (env : Env) (cols : Nat) (tw th : Int) :
    ∀ (i : Nat) (ws : List Window) (id : WinId) (title : String) (g : Geom),
      (id, title) ∈ ws → env.is_maximized id = true →
      env.get_window_geometry id = some g →
      (id, g) ∈ (arrangeLoop env cols tw th i ws).2.1 := by
  intro i ws
  induction ws generalizing i with
  | nil => intro id title g hmem _ _; simp at hmem
  | cons hd tl ih =>
    intro id title g hmem hmax hgeom
    obtain ⟨wid, wtitle⟩ := hd
    rcases List.mem_cons.mp hmem with heq | hmem2
    · obtain ⟨h1, h2⟩ := Prod.mk.injEq .. ▸ heq
      subst h1
      simp only [arrangeLoop, hmax, if_true, hgeom]
      exact List.mem_cons_self _ _
    · have hrec := ih (i + 1) id title g hmem2 hmax hgeom
      simp only [arrangeLoop]
      split
      · split
        · exact List.mem_cons_of_mem _ hrec
        · exact hrec
      · exact List.mem_cons_of_mem _ hrec

/-- Shape of every command `arrangeLoop` emits: it is the grid command of
some enumeration index `k` below the end of the window list. -/
theorem arrangeLoop_cmds_shape (env : Env) (cols : Nat) (tw th : Int) :
    ∀ (i : Nat) (ws : List Window) (c : Cmd), c ∈ (arrangeLoop env cols tw th i ws).1 →
      ∃ k, k < i + ws.length ∧
        c.x = Int.ofNat (k % cols) * tw ∧ c.y = Int.ofNat (k / cols) * th ∧
        c.width = tw ∧ c.height = th := by
  intro i ws
  induction ws generalizing i with
  | nil => intro c hc; simp [arrangeLoop] at hc
  | cons hd tl ih =>
    intro c hc
    obtain ⟨wid, wtitle⟩ := hd
    simp only [arrangeLoop] at hc
    split at hc
    · split at hc
      · obtain ⟨k, hk, hrest⟩ := ih (i + 1) c hc
        exact ⟨k, by simp only [List.length_cons]; omega, hrest⟩
      · obtain ⟨k, hk, hrest⟩ := ih (i + 1) c hc
        exact ⟨k, by simp only [List.length_cons]; omega, hrest⟩
    · simp only [List.mem_cons] at hc
      rcases hc with hceq | hc
      · subst hceq
        exact ⟨i, by simp only [List.length_cons]; omega, rfl, rfl, rfl, rfl⟩
      · obtain ⟨k, hk, hrest⟩ := ih (i + 1) c hc
        exact ⟨k, by simp only [List.length_cons]; omega, hrest⟩

/-- When no window is maximized, the commands `arrangeLoop` emits are exactly
the spec's grid assignment. -/
theorem arrangeLoop_cmds_of_no_maximized (env : Env) (cols : Nat) (tw th : Int) :
    ∀ (i : Nat) (ws : List Window), (∀ p ∈ ws, env.is_maximized p.1 = false) →
      (arrangeLoop env cols tw th i ws).1 = gridCmds cols tw th i ws := by
  intro i ws
  induction ws generalizing i with
  | nil => intro _; rfl
  | cons hd tl ih =>
    intro hmax
    obtain ⟨wid, wtitle⟩ := hd
    have h1 : env.is_maximized wid = false := hmax (wid, wtitle) (List.mem_cons_self _ _)
    simp only [arrangeLoop, gridCmds, h1, Bool.false_eq_true, if_false]
    exact congrArg _ (ih (i + 1) (fun p hp => hmax p (List.mem_cons_of_mem _ hp)))

/- ### Claim theorems -/

/-- C5: For every window count `N ≥ 1`, the grid computed by the arrangement
routine — `cols = ceil(sqrt N)` and `rows = ceil(N / cols)`, exactly the
expressions of lines 186-187 — has enough cells for all windows:
`cols * rows ≥ N`. -/
theorem C5_grid_capacity (n : Nat) (hn : 1 ≤ n) :
    n ≤ ceilSqrt n * ((n + ceilSqrt n - 1) / ceilSqrt n) :=
  mul_ceil_div_ge n (ceilSqrt n) (ceilSqrt_pos n hn)

/-- Witness for C5 at `N = 3`: a 2x2 grid holds 3 windows. -/
theorem C5_grid_capacity_witness :
    3 ≤ ceilSqrt 3 * ((3 + ceilSqrt 3 - 1) / ceilSqrt 3) :=
  C5_grid_capacity 3 (by decide)

/-- C9: Applied to an empty window list, `arrange_and_update_state` computes
`cols = ceil(sqrt 0) = 0` and the unguarded `ceil(len / cols)` raises
`ZeroDivisionError`; for a non-empty list that division never raises. -/
theorem C9_empty_windows_zero_division (env : Env) (ws : List Window) (hne : ws ≠ []) :
    arrange_and_update_state env [] = Except.error PyErr.zeroDivision ∧
    arrange_and_update_state env ws ≠ Except.error PyErr.zeroDivision := by
  refine ⟨rfl, ?_⟩
  have hlen : 1 ≤ ws.length := List.length_pos.mpr hne
  have hc : 1 ≤ ceilSqrt ws.length := ceilSqrt_pos _ hlen
  have hr : 1 ≤ (ws.length + ceilSqrt ws.length - 1) / ceilSqrt ws.length :=
    ceil_div_pos _ _ hlen hc
  have htab : tabsize env.xdpyinfo (ceilSqrt ws.length)
      ((ws.length + ceilSqrt ws.length - 1) / ceilSqrt ws.length) ≠
      Except.error PyErr.zeroDivision := by
    have hA : ceilSqrt ws.length ≠ 0 := by omega
    have hB : (ws.length + ceilSqrt ws.length - 1) / ceilSqrt ws.length ≠ 0 := by omega
    unfold tabsize
    cases screensize env.xdpyinfo with
    | none => simp
    | some wh =>
      obtain ⟨w, h⟩ := wh
      simp [hA, hB]
  unfold arrange_and_update_state
  rw [if_neg (by omega)]
  cases htabv : tabsize env.xdpyinfo (ceilSqrt ws.length)
      ((ws.length + ceilSqrt ws.length - 1) / ceilSqrt ws.length) with
  | error e =>
    rw [htabv] at htab
    simpa using htab
  | ok p =>
    obtain ⟨tw, th⟩ := p
    simp

/-- Witness for C9: with the screen query absent, the empty list raises and
the singleton list does not. -/
theorem C9_empty_windows_zero_division_witness :
    arrange_and_update_state envA [] = Except.error PyErr.zeroDivision ∧
    arrange_and_update_state envA [("0x4", "mail")] ≠ Except.error PyErr.zeroDivision :=
  C9_empty_windows_zero_division envA [("0x4", "mail")] (by decide)

/-- C3: Whenever the enumerated identifier set differs, as a set, from the
key set of the recorded Layout State, the decision pass unconditionally
performs a full rearrangement of all current windows (the pass equals an
`arrange_and_update_state` call on the whole enumeration, with the
window-set-changed message logged first). -/
theorem C3_set_change_rearranges (env : Env) (prev : StateMap) (ws : List Window)
    (h : setEq (ws.map Prod.fst) (keys prev) = false) :
    arrange_windows env prev ws =
      rearrangePass env prev ws "Window set changed — rearranging." := by
  simp [arrange_windows, h]

/-- Witness for C3: one window appears while the recorded state is empty. -/
theorem C3_set_change_rearranges_witness :
    arrange_windows envA [] [("0x3", "files")] =
      rearrangePass envA [] [("0x3", "files")] "Window set changed — rearranging." :=
  C3_set_change_rearranges envA [] [("0x3", "files")] rfl

/-- C8 counterexample: the claim says a zero-window pass performs no action,
computes no grid, and logs that no windows were found.  In fact, with a
non-empty recorded Layout State the pass attempts a full rearrangement and
the grid computation raises `ZeroDivisionError`; and in the benign case of an
empty recorded state the only message logged is the debug-level
`No layout change needed.` — no no-windows message exists in the code. -/
theorem C8_zero_windows_counterexample :
    arrange_windows envA [("0x9", (0, 0, 10, 10))] [] = Except.error PyErr.zeroDivision ∧
    arrange_windows envA [] [] = Except.ok ⟨[], [], ["No layout change needed."]⟩ :=
  ⟨rfl, rfl⟩

/-- C8 amended: on a zero-window enumeration, if the recorded Layout State is
empty the pass performs no action and logs only `No layout change needed.`;
if it is non-empty, the pass unconditionally attempts a full rearrangement,
which raises `ZeroDivisionError`.  No message about windows not being found
is logged in either case. -/
theorem C8_zero_windows_behaviour (env : Env) (prev : StateMap) :
    (prev = [] →
      arrange_windows env prev [] = Except.ok ⟨[], [], ["No layout change needed."]⟩) ∧
    (prev ≠ [] → arrange_windows env prev [] = Except.error PyErr.zeroDivision) := by
  constructor
  · intro hp
    subst hp
    rfl
  · intro hp
    cases prev with
    | nil => exact absurd rfl hp
    | cons g t => rfl

/-- Witness for C8 at a concrete environment and both state shapes. -/
theorem C8_zero_windows_behaviour_witness :
    arrange_windows envB [] [] = Except.ok ⟨[], [], ["No layout change needed."]⟩ ∧
    arrange_windows envB [("0xa", (1, 2, 3, 4))] [] = Except.error PyErr.zeroDivision :=
  ⟨(C8_zero_windows_behaviour envB []).1 rfl,
   (C8_zero_windows_behaviour envB [("0xa", (1, 2, 3, 4))]).2 (by simp)⟩

/-- C7 counterexample: when the screen-dimension query succeeds but its
output contains no `dimensions:` line at all, `screensize` does not return
the `(1920, 1080)` default — it falls off the parsing loop and returns
`None`. -/
theorem C7_screensize_counterexample :
    screensize (XResult.output ["hello"]) = none ∧
    screensize (XResult.output ["hello"]) ≠ some (1920, 1080) :=
  ⟨rfl, by decide⟩

/-- C7 amended: `screensize` returns the fixed default `(1920, 1080)` when
the tool is missing, when it exits non-zero, and when the first
`dimensions:` line of its output fails to parse; but when no output line
contains `dimensions:`, it returns `None` instead of the default. -/
theorem C7_screensize_fallback :
    (screensize XResult.missing = some (1920, 1080)) ∧
    (screensize XResult.failed = some (1920, 1080)) ∧
    (∀ lines line, findDimLine lines = some line → parseDimLine line = none →
      screensize (XResult.output lines) = some (1920, 1080)) ∧
    (∀ lines, findDimLine lines = none → screensize (XResult.output lines) = none) := by
  refine ⟨rfl, rfl, ?_, ?_⟩
  · intro lines line hf hp
    simp [screensize, hf, hp]
  · intro lines hf
    simp [screensize, hf]

/-- Witness for C7: a malformed dimensions line falls back to the default,
and an output with no dimensions line yields `None`. -/
theorem C7_screensize_fallback_witness :
    screensize (XResult.output ["dimensions: axb"]) = some (1920, 1080) ∧
    screensize (XResult.output ["hi"]) = none :=
  ⟨C7_screensize_fallback.2.2.1 ["dimensions: axb"] "dimensions: axb" rfl rfl,
   C7_screensize_fallback.2.2.2 ["hi"] rfl⟩

/-- C4: For `N ≥ 1` windows, none maximized, and a successful screen query
`(sw, sh)`, rearrangement computes `cols = ceil(sqrt N)`,
`rows = ceil(N / cols)`, cell size `(floor(sw / cols), floor(sh / rows))`,
and issues for window `i` (0-indexed, in enumeration order) exactly the
command placing it at `((i mod cols) * cell_w, (i div cols) * cell_h)` with
the cell size — the spec-side `gridCmds` assignment. -/
theorem C4_grid_placement (env : Env) (ws : List Window) (sw sh : Int)
    (hlen : 1 ≤ ws.length)
    (hmax : ∀ p ∈ ws, env.is_maximized p.1 = false)
    (hscr : screensize env.xdpyinfo = some (sw, sh)) :
    (arrange_and_update_state env ws).map ArrangeResult.cmds =
      Except.ok (gridCmds (ceilSqrt ws.length)
        (Int.fdiv sw (Int.ofNat (ceilSqrt ws.length)))
        (Int.fdiv sh (Int.ofNat ((ws.length + ceilSqrt ws.length - 1) / ceilSqrt ws.length)))
        0 ws) := by
  have hc : 1 ≤ ceilSqrt ws.length := ceilSqrt_pos _ hlen
  have hr : 1 ≤ (ws.length + ceilSqrt ws.length - 1) / ceilSqrt ws.length :=
    ceil_div_pos _ _ hlen hc
  have hA : ceilSqrt ws.length ≠ 0 := by omega
  have hB : (ws.length + ceilSqrt ws.length - 1) / ceilSqrt ws.length ≠ 0 := by omega
  have htab : tabsize env.xdpyinfo (ceilSqrt ws.length)
      ((ws.length + ceilSqrt ws.length - 1) / ceilSqrt ws.length) =
      Except.ok (Int.fdiv sw (Int.ofNat (ceilSqrt ws.length)),
        Int.fdiv sh (Int.ofNat ((ws.length + ceilSqrt ws.length - 1) / ceilSqrt ws.length))) := by
    unfold tabsize
    rw [hscr]
    simp [hA, hB]
  unfold arrange_and_update_state
  rw [if_neg hA, htab]
  simp only [Except.map]
  rw [arrangeLoop_cmds_of_no_maximized env (ceilSqrt ws.length) _ _ 0 ws hmax]

/-- Witness for C4, the spec's example: four windows on a 1920x1080 screen
(parsed from a realistic `xdpyinfo` output) land at `(0,0)`, `(960,0)`,
`(0,540)`, `(960,540)` with 960x540 cells. -/
theorem C4_grid_placement_witness :
    (arrange_and_update_state envD wsD).map ArrangeResult.cmds =
      Except.ok [⟨"0w1", 0, 0, 960, 540⟩, ⟨"0w2", 960, 0, 960, 540⟩,
        ⟨"0w3", 0, 540, 960, 540⟩, ⟨"0w4", 960, 540, 960, 540⟩] :=
  (C4_grid_placement envD wsD 1920 1080 (by decide) (by decide) rfl).trans (by rfl)

/-- C6: A window that is maximized at arrangement time is never the target
of a move/resize command, regardless of the grid position its enumeration
index would be assigned; instead its observed geometry is recorded in the
new state the pass builds. -/
theorem C6_maximized_never_moved (env : Env) (ws : List Window) (id : WinId)
    (title : String) (g : Geom) (r : ArrangeResult)
    (hmem : (id, title) ∈ ws)
    (hmax : env.is_maximized id = true)
    (hgeom : env.get_window_geometry id = some g)
    (hok : arrange_and_update_state env ws = Except.ok r)
    (c : Cmd) (hc : c ∈ r.cmds) :
    c.win_id ≠ id ∧ (id, g) ∈ r.new_state := by
  obtain ⟨tw, th, htab, hcne, hr⟩ := arrange_ok_elim env ws r hok
  subst hr
  constructor
  · intro heq
    have hfree := arrangeLoop_cmds_not_maximized env (ceilSqrt ws.length) tw th 0 ws c hc
    rw [heq, hmax] at hfree
    cases hfree
  · exact arrangeLoop_records_maximized env (ceilSqrt ws.length) tw th 0 ws id title g
      hmem hmax hgeom

/-- Witness for C6: the maximized window `0xm` is untouched while `0xn` is
arranged around it, and `0xm` keeps its observed geometry in the new
state. -/
theorem C6_maximized_never_moved_witness :
    (⟨"0xn", 960, 0, 960, 1080⟩ : Cmd).win_id ≠ "0xm" ∧
    ("0xm", ((5 : Int), (6 : Int), (300 : Int), (200 : Int))) ∈ rB.new_state :=
  C6_maximized_never_moved envB wsB "0xm" "video" (5, 6, 300, 200) rB
    (by decide) rfl rfl rfl ⟨"0xn", 960, 0, 960, 1080⟩ (by decide)

/-- C10: With a successful screen query of non-negative dimensions
`(sw, sh)`, every move/resize command a successful
`arrange_and_update_state` pass issues places its rectangle entirely within
the screen: `x + width ≤ sw` and `y + height ≤ sh`. -/
theorem C10_on_screen (env : Env) (ws : List Window) (sw sh : Int) (r : ArrangeResult)
    (hsw : 0 ≤ sw) (hsh : 0 ≤ sh)
    (hscr : screensize env.xdpyinfo = some (sw, sh))
    (hok : arrange_and_update_state env ws = Except.ok r)
    (c : Cmd) (hc : c ∈ r.cmds) :
    c.x + c.width ≤ sw ∧ c.y + c.height ≤ sh := by
  obtain ⟨tw, th, htab, hcne, hr⟩ := arrange_ok_elim env ws r hok
  have hlen : 1 ≤ ws.length := length_pos_of_ceilSqrt_ne_zero hcne
  have hcpos : 0 < ceilSqrt ws.length := Nat.pos_of_ne_zero hcne
  have hrpos : 0 < (ws.length + ceilSqrt ws.length - 1) / ceilSqrt ws.length :=
    ceil_div_pos _ _ hlen hcpos
  -- unpack the tabsize equation into the two cell sizes
  have htw : tw = Int.fdiv sw (Int.ofNat (ceilSqrt ws.length)) ∧
      th = Int.fdiv sh (Int.ofNat ((ws.length + ceilSqrt ws.length - 1) / ceilSqrt ws.length)) := by
    have hA : ceilSqrt ws.length ≠ 0 := by omega
    have hB : (ws.length + ceilSqrt ws.length - 1) / ceilSqrt ws.length ≠ 0 := by omega
    unfold tabsize at htab
    rw [hscr] at htab
    simp [hA, hB] at htab
    exact ⟨htab.1.symm, htab.2.symm⟩
  obtain ⟨htw1, hth1⟩ := htw
  subst htw1 hth1 hr
  obtain ⟨k, hk, hx, hy, hwd, hht⟩ :=
    arrangeLoop_cmds_shape env (ceilSqrt ws.length)
      (Int.fdiv sw (Int.ofNat (ceilSqrt ws.length)))
      (Int.fdiv sh (Int.ofNat ((ws.length + ceilSqrt ws.length - 1) / ceilSqrt ws.length)))
      0 ws c hc
  rw [hx, hwd, hy, hht]
  have hkn : k < ws.length := by omega
  have hcap : ws.length ≤ ceilSqrt ws.length *
      ((ws.length + ceilSqrt ws.length - 1) / ceilSqrt ws.length) :=
    mul_ceil_div_ge _ _ hcpos
  constructor
  · -- horizontal bound
    have hcpos' : (0 : Int) < Int.ofNat (ceilSqrt ws.length) := by
      simp only [Int.ofNat_eq_natCast]
      omega
    have htw0 : 0 ≤ Int.fdiv sw (Int.ofNat (ceilSqrt ws.length)) :=
      Int.fdiv_nonneg hsw (by omega)
    have hfl := Int.fdiv_add_fmod sw (Int.ofNat (ceilSqrt ws.length))
    have hm0 : 0 ≤ sw.fmod (Int.ofNat (ceilSqrt ws.length)) := Int.fmod_nonneg' sw hcpos'
    have h1 : Int.ofNat (ceilSqrt ws.length) * Int.fdiv sw (Int.ofNat (ceilSqrt ws.length)) ≤ sw := by
      simp only [Int.ofNat_eq_natCast] at hfl hm0 ⊢
      omega
    have hmodlt : k % ceilSqrt ws.length < ceilSqrt ws.length := Nat.mod_lt _ hcpos
    have h3 : Int.ofNat (k % ceilSqrt ws.length) + 1 ≤ Int.ofNat (ceilSqrt ws.length) := by
      simp only [Int.ofNat_eq_natCast]
      omega
    calc Int.ofNat (k % ceilSqrt ws.length) * Int.fdiv sw (Int.ofNat (ceilSqrt ws.length)) +
          Int.fdiv sw (Int.ofNat (ceilSqrt ws.length))
        = (Int.ofNat (k % ceilSqrt ws.length) + 1) *
            Int.fdiv sw (Int.ofNat (ceilSqrt ws.length)) := by ring
      _ ≤ Int.ofNat (ceilSqrt ws.length) * Int.fdiv sw (Int.ofNat (ceilSqrt ws.length)) :=
          mul_le_mul_of_nonneg_right h3 htw0
      _ ≤ sw := h1
  · -- vertical bound
    have hrpos' : (0 : Int) <
        Int.ofNat ((ws.length + ceilSqrt ws.length - 1) / ceilSqrt ws.length) := by
      simp only [Int.ofNat_eq_natCast]
      omega
    have hth0 : 0 ≤ Int.fdiv sh
        (Int.ofNat ((ws.length + ceilSqrt ws.length - 1) / ceilSqrt ws.length)) :=
      Int.fdiv_nonneg hsh (by omega)
    have hfl := Int.fdiv_add_fmod sh
      (Int.ofNat ((ws.length + ceilSqrt ws.length - 1) / ceilSqrt ws.length))
    have hm0 : 0 ≤ sh.fmod
        (Int.ofNat ((ws.length + ceilSqrt ws.length - 1) / ceilSqrt ws.length)) :=
      Int.fmod_nonneg' sh hrpos'
    have h1 : Int.ofNat ((ws.length + ceilSqrt ws.length - 1) / ceilSqrt ws.length) *
        Int.fdiv sh (Int.ofNat ((ws.length + ceilSqrt ws.length - 1) / ceilSqrt ws.length)) ≤
        sh := by omega
    have hdivlt : k / ceilSqrt ws.length <
        (ws.length + ceilSqrt ws.length - 1) / ceilSqrt ws.length := by
      rw [Nat.div_lt_iff_lt_mul hcpos]
      calc k < ws.length := hkn
        _ ≤ ceilSqrt ws.length *
              ((ws.length + ceilSqrt ws.length - 1) / ceilSqrt ws.length) := hcap
        _ = ((ws.length + ceilSqrt ws.length - 1) / ceilSqrt ws.length) *
              ceilSqrt ws.length := Nat.mul_comm _ _
    have h3 : Int.ofNat (k / ceilSqrt ws.length) + 1 ≤
        Int.ofNat ((ws.length + ceilSqrt ws.length - 1) / ceilSqrt ws.length) := by
      simp only [Int.ofNat_eq_natCast]
      omega
    calc Int.ofNat (k / ceilSqrt ws.length) *
          Int.fdiv sh (Int.ofNat ((ws.length + ceilSqrt ws.length - 1) / ceilSqrt ws.length)) +
          Int.fdiv sh (Int.ofNat ((ws.length + ceilSqrt ws.length - 1) / ceilSqrt ws.length))
        = (Int.ofNat (k / ceilSqrt ws.length) + 1) *
            Int.fdiv sh (Int.ofNat ((ws.length + ceilSqrt ws.length - 1) / ceilSqrt ws.length)) := by
          ring
      _ ≤ Int.ofNat ((ws.length + ceilSqrt ws.length - 1) / ceilSqrt ws.length) *
            Int.fdiv sh (Int.ofNat ((ws.length + ceilSqrt ws.length - 1) / ceilSqrt ws.length)) :=
          mul_le_mul_of_nonneg_right h3 hth0
      _ ≤ sh := h1

/-- Witness for C10: the middle command of the three-window arrangement on
the default screen stays within 1920x1080. -/
theorem C10_on_screen_witness :
    (⟨"0x6", 960, 0, 960, 540⟩ : Cmd).x + (⟨"0x6", 960, 0, 960, 540⟩ : Cmd).width ≤ 1920 ∧
    (⟨"0x6", 960, 0, 960, 540⟩ : Cmd).y + (⟨"0x6", 960, 0, 960, 540⟩ : Cmd).height ≤ 1080 :=
  C10_on_screen envA wsC 1920 1080 rC (by decide) (by decide) rfl rfl
    ⟨"0x6", 960, 0, 960, 540⟩ (by decide)

/-- C1: Evaluation at the failing input.  With an empty recorded Layout
State and a single non-maximized window `0x1` whose live geometry already
equals its grid cell `(0, 0, 1920, 1080)`, the first decision pass arranges
it (one command) yet leaves the global `prev_window_state` empty — line 203
of the source assigns the new dictionary to the misspelled local
`prev_window_states` — so an immediately following identical pass, with the
window set and all geometries unchanged, again issues one move/resize
command instead of being a no-op. -/
theorem C1_second_pass_not_noop :
    (arrange_windows envA [] [("0x1", "term")]).map
        (fun r => (r.cmds.length, r.prev_after)) = Except.ok (1, []) ∧
    ((arrange_windows envA [] [("0x1", "term")]).bind
        (fun r1 => arrange_windows envA r1.prev_after [("0x1", "term")])).map
        (fun r2 => r2.cmds.length) = Except.ok 1 :=
  ⟨rfl, rfl⟩

/-- C2: Evaluation at the failing input.  After arranging the single window
`0x2` into `(0, 0, 1920, 1080)`, the pass's `prev_after` component — the
global Layout State — is still `[]` rather than the pass's computed state
`[("0x2", (0, 0, 1920, 1080))]`: line 203 of the source assigns the new
dictionary to the misspelled local `prev_window_states`, so the Layout State
is never overwritten. -/
theorem C2_state_not_updated :
    arrange_windows envA [] [("0x2", "editor")] =
      Except.ok ⟨[⟨"0x2", 0, 0, 1920, 1080⟩], [],
        ["Window set changed — rearranging.", "Updated layout of 1 windows."]⟩ ∧
    ([] : StateMap) ≠ [("0x2", ((0 : Int), (0 : Int), (1920 : Int), (1080 : Int)))] :=
  ⟨rfl, by decide⟩
